import Mathlib

/-!
# Verification of the event-registration application (`src/app.py`)

Shallow embedding of the Flask/SQLite event-registration application.
The two SQL tables (`EVENTS`, `PARTICIPANTS`) are embedded as Lean lists held
in a `DB` record; each route handler becomes a pure function from the request
data and the current `DB` to a user-facing response together with the new `DB`.
Python string primitives (`str.strip`, `str.lower`) are embedded over their
ASCII fragment, which is the fragment all the verified properties exercise.
Randomness (`secrets.token_urlsafe`) is embedded by passing the freshly
generated token as an explicit argument.
-/

namespace EventApp

/-! ## Python string primitives (ASCII fragment)

`lowerChar` embeds `str.lower` character-wise ('A'..'Z' have codes 65..90 and
are mapped 32 codes up to 'a'..'z'); `isSpaceChar` embeds the ASCII whitespace
characters recognised by `str.strip` (space, tab, newline, carriage return,
vertical tab, form feed). -/

def lowerChar (c : Char) : Char :=
  if 65 ≤ c.toNat ∧ c.toNat ≤ 90 then Char.ofNat (c.toNat + 32) else c

def isSpaceChar (c : Char) : Bool :=
  c.toNat = 32 || c.toNat = 9 || c.toNat = 10 || c.toNat = 13 ||
    c.toNat = 11 || c.toNat = 12

/-- Embeds Python `s.lower()` (ASCII fragment). -/
def pyLower (s : String) : String :=
  ⟨s.data.map lowerChar⟩

/-- Embeds Python `s.strip()` (ASCII fragment): drop whitespace from the
front, then from the back. -/
def pyStrip (s : String) : String :=
  ⟨List.rdropWhile isSpaceChar (List.dropWhile isSpaceChar s.data)⟩

/-- Embeds `request.form.get('email', '').strip().lower()` — the email normalisation
applied by `public_register` (src/app.py:436). -/
def normalize_email (e : String) : String :=
  pyLower (pyStrip e)

/-! ## Email validation (`is_valid_email`, src/app.py:191-194)

The pattern `^[a-zA-Z0-9._%+-]+@[a-zA-Z0-9.-]+\.[a-zA-Z]{2,}$` accepts a
string iff it decomposes as `local ++ "@" ++ pre ++ "." ++ tld` with `local`
a non-empty run of local characters, `pre` a non-empty run of domain
characters and `tld` at least two letters.  Since the tld piece admits no
dot, the decomposition — when it exists — must split the domain at its last
dot, and since no character class admits `'@'`, at the first `'@'`. -/

def localChar (c : Char) : Bool :=
  c.isAlpha || c.isDigit || c = '.' || c = '_' || c = '%' || c = '+' || c = '-'

def domainChar (c : Char) : Bool :=
  c.isAlpha || c.isDigit || c = '.' || c = '-'

/-- Split a character list at the first occurrence of `sep` (none if absent). -/
def splitAtFirst (sep : Char) : List Char → Option (List Char × List Char)
  | [] => none
  | c :: rest =>
    if c = sep then some ([], rest)
    else
      match splitAtFirst sep rest with
      | some (a, b) => some (c :: a, b)
      | none => none

/-- Split a character list at the last occurrence of `sep` (none if absent). -/
def splitAtLast (sep : Char) : List Char → Option (List Char × List Char)
  | [] => none
  | c :: rest =>
    match splitAtLast sep rest with
    | some (a, b) => some (c :: a, b)
    | none => if c = sep then some ([], rest) else none

def is_valid_email (email : String) : Bool :=
  match splitAtFirst '@' email.data with
  | none => false
  | some (lp, dom) =>
    !lp.isEmpty && lp.all localChar &&
      (match splitAtLast '.' dom with
       | none => false
       | some (pre, tld) =>
         !pre.isEmpty && pre.all domainChar &&
           decide (2 ≤ tld.length) && tld.all Char.isAlpha)

/-! ## Data model -/

/-- The `registration_token` column of an `EVENTS` row as seen through a
`sqlite3.Row`: the column may be absent entirely (legacy schema — indexing
raises), hold SQL `NULL` (Python `None`), or hold a string value. -/
inductive TokenField where
  | missing
  | null
  | val (s : String)
deriving DecidableEq

structure Event where
  id : Nat
  name : String
  description : String
  date : String
  registration_token : TokenField
deriving DecidableEq

structure Participant where
  id : Nat
  event_id : Nat
  name : String
  email : String
  college : String
deriving DecidableEq

/-- The database state.  Both row lists are kept newest-first, matching the
`ORDER BY ... DESC` used by every query in the source; `nextEventId` and
`nextParticipantId` embed the `AUTOINCREMENT` counters. -/
structure DB where
  events : List Event
  participants : List Participant
  nextEventId : Nat
  nextParticipantId : Nat
deriving DecidableEq

/-- SQL equality `registration_token = ?`: `NULL` (and an absent column)
never compares equal to a string. -/
def tokenMatches (f : TokenField) (t : String) : Bool :=
  f = TokenField.val t

/-! ## Database helpers (src/app.py:148-247) -/

/-- Embeds `get_event_by_id` (src/app.py:210-217). -/
def get_event_by_id (db : DB) (event_id : Nat) : Option Event :=
  db.events.find? (fun e => e.id = event_id)

/-- Embeds `get_event_by_token` (src/app.py:220-227). -/
def get_event_by_token (db : DB) (token : String) : Option Event :=
  db.events.find? (fun e => tokenMatches e.registration_token token)

/-- Embeds `participant_exists_in_event` (src/app.py:197-207):
`SELECT id FROM PARTICIPANTS WHERE email = ? AND event_id = ?`. -/
def participant_exists_in_event (db : DB) (email : String) (event_id : Nat) : Bool :=
  db.participants.any (fun p => p.email = email && p.event_id = event_id)

/-- Embeds `get_participant_count` (src/app.py:240-247):
`SELECT COUNT(*) FROM PARTICIPANTS WHERE event_id = ?`. -/
def get_participant_count (db : DB) (event_id : Nat) : Nat :=
  (db.participants.filter (fun p => decide (p.event_id = event_id))).length

/-- Embeds `get_event_token_safely` (src/app.py:153-173): an absent column raises
`IndexError`/`KeyError` (caught, returning `None`); a falsy value (`None` or
the empty string) also yields `None`. -/
def get_event_token_safely : TokenField → Option String
  | TokenField.missing => none
  | TokenField.null => none
  | TokenField.val s => if s = "" then none else some s

/-! ## Authentication (src/app.py:262-282) -/

structure Config where
  admin_username : String
  admin_password : String
deriving DecidableEq

/-- The development defaults of `ADMIN_USERNAME` / `ADMIN_PASSWORD`
(src/app.py:34-35). -/
def defaultConfig : Config :=
  { admin_username := "admin", admin_password := "admin123" }

structure Session where
  admin_logged_in : Bool
  admin_username : String
deriving DecidableEq

/-- The POST branch of `login` (src/app.py:269-280): the submitted username
is stripped, the password is compared as submitted; `some` means the session
flag was established, `none` the invalid-credentials flash. -/
def login (cfg : Config) (username password : String) : Option Session :=
  let u := pyStrip username
  if u = cfg.admin_username && password = cfg.admin_password then
    some { admin_logged_in := true, admin_username := u }
  else
    none

/-! ## Event creation (src/app.py:330-383) -/

structure EventForm where
  name : String
  description : String
  date : String
deriving DecidableEq

inductive AdminResponse where
  | backToCreate (flashMsg : String)
  | toDashboard (flashMsg : String)
deriving DecidableEq

/-- The POST branch of `create_event`.  `freshToken` is the value returned by
`generate_registration_token()` (src/app.py:148-150), i.e.
`secrets.token_urlsafe(16)`, passed explicitly.  A token colliding with an
existing one violates the `UNIQUE` constraint on `EVENTS.registration_token`;
the resulting `sqlite3.IntegrityError` is caught by the generic
`sqlite3.Error` handler (src/app.py:379-381) and nothing is inserted. -/
def create_event (db : DB) (form : EventForm) (freshToken : String) :
    AdminResponse × DB :=
  let name := pyStrip form.name
  let description := pyStrip form.description
  let date := pyStrip form.date
  if name = "" || name.length < 3 then
    (AdminResponse.backToCreate "Event name must be at least 3 characters.", db)
  else if date = "" then
    (AdminResponse.backToCreate "Please select an event date.", db)
  else if db.events.any (fun e => tokenMatches e.registration_token freshToken) then
    (AdminResponse.backToCreate "Database error: UNIQUE constraint failed: EVENTS.registration_token", db)
  else
    let ev : Event :=
      { id := db.nextEventId, name := name, description := description,
        date := date, registration_token := TokenField.val freshToken }
    (AdminResponse.toDashboard
        ("Event \"" ++ name ++ "\" created successfully! Registration link generated."),
      { db with events := ev :: db.events, nextEventId := db.nextEventId + 1 })

/-! ## Event deletion (src/app.py:386-412) -/

/-- Embeds `delete_event`: fetch-or-flash, then
`DELETE FROM PARTICIPANTS WHERE event_id = ?` followed by
`DELETE FROM EVENTS WHERE id = ?`. -/
def delete_event (db : DB) (event_id : Nat) : AdminResponse × DB :=
  match get_event_by_id db event_id with
  | none => (AdminResponse.toDashboard "Event not found.", db)
  | some event =>
    (AdminResponse.toDashboard ("Event \"" ++ event.name ++ "\" deleted successfully."),
      { db with
        participants := db.participants.filter (fun p => !decide (p.event_id = event_id)),
        events := db.events.filter (fun e => !decide (e.id = event_id)) })

/-! ## Public registration (src/app.py:419-478) -/

structure RegForm where
  name : String
  email : String
  college : String
deriving DecidableEq

inductive RegResponse where
  | errorView (message description : String)
  | backToForm (token flashMsg : String)
  | successPage (event_name participant_name : String)
deriving DecidableEq

/-- The `INSERT INTO PARTICIPANTS` (src/app.py:459-462) under the
`UNIQUE(event_id, email)` constraint: `none` embeds `sqlite3.IntegrityError`. -/
def insert_participant (db : DB) (event_id : Nat) (name email college : String) :
    Option DB :=
  if db.participants.any (fun p => p.event_id = event_id && p.email = email) then
    none
  else
    some { db with
           participants :=
             { id := db.nextParticipantId, event_id := event_id,
               name := name, email := email, college := college } :: db.participants,
           nextParticipantId := db.nextParticipantId + 1 }

/-- The POST branch of `public_register`.  The handler touches the store
twice: the duplicate pre-check (src/app.py:448) reads the state current at
pre-check time (`precheckDb`), while the INSERT (src/app.py:459) runs against
the state current at insert time (`insertDb`); splitting the two embeds a
concurrent registration committing in between.  A sequential request has
`precheckDb = insertDb` (see `public_register`). -/
def public_register_post (precheckDb insertDb : DB) (token : String)
    (form : RegForm) : RegResponse × DB :=
  match get_event_by_token precheckDb token with
  | none =>
    (RegResponse.errorView "Invalid Registration Link"
        "The registration link you used is invalid or has expired.", insertDb)
  | some event =>
    let name := pyStrip form.name
    let email := normalize_email form.email
    let college := pyStrip form.college
    if name = "" || name.length < 2 then
      (RegResponse.backToForm token "Name must be at least 2 characters.", insertDb)
    else if email = "" || !is_valid_email email then
      (RegResponse.backToForm token "Please enter a valid email address.", insertDb)
    else if participant_exists_in_event precheckDb email event.id then
      (RegResponse.backToForm token "This email is already registered for this event.", insertDb)
    else if college = "" || college.length < 2 then
      (RegResponse.backToForm token "College/Organization must be at least 2 characters.", insertDb)
    else
      match insert_participant insertDb event.id name email college with
      | none =>
        (RegResponse.backToForm token "This email is already registered for this event.", insertDb)
      | some db2 => (RegResponse.successPage event.name name, db2)

/-- A sequential registration attempt: no concurrent write between the
pre-check and the insert. -/
def public_register (db : DB) (token : String) (form : RegForm) :
    RegResponse × DB :=
  public_register_post db db token form

/-! ## Participant listing (src/app.py:496-546) -/

/-- Tests whether `needle` occurs as a contiguous sublist at the head of `hay`. -/
def leadsList : List Char → List Char → Bool
  | [], _ => true
  | _ :: _, [] => false
  | a :: as, b :: bs => a = b && leadsList as bs

/-- Tests whether `needle` occurs as a contiguous sublist anywhere in `hay` — the embedding
of SQL `LIKE wildcard-percent needle wildcard-percent` for a wildcard-free
`needle`. -/
def containsSub (needle : List Char) : List Char → Bool
  | [] => needle.isEmpty
  | c :: rest => leadsList needle (c :: rest) || containsSub needle rest

/-- Embeds `LOWER(name) LIKE ? OR LOWER(email) LIKE ?` with pattern
percent-query-percent (src/app.py:515). -/
def matchesSearch (q : String) (p : Participant) : Bool :=
  containsSub q.data (pyLower p.name).data || containsSub q.data (pyLower p.email).data

inductive ViewResponse where
  | toDashboard (flashMsg : String)
  | page (participants : List Participant) (participant_count : Nat)
deriving DecidableEq

/-- Embeds `view_participants`: fetch-or-flash on the event, then the (optionally
search-filtered) participant query; the displayed `participant_count` is
`len(participants)` of the returned list (src/app.py:535). -/
def view_participants (db : DB) (event_id : Nat) (search : String) : ViewResponse :=
  match get_event_by_id db event_id with
  | none => ViewResponse.toDashboard "Event not found."
  | some _ =>
    let q := pyLower (pyStrip search)
    let ps :=
      if q = "" then
        db.participants.filter (fun p => decide (p.event_id = event_id))
      else
        db.participants.filter
          (fun p => decide (p.event_id = event_id) && matchesSearch q p)
    ViewResponse.page ps ps.length

/-! ## Participant deletion (src/app.py:548-564) -/

inductive PartResponse where
  | toParticipants (event_id : Nat) (flashMsg : String)
deriving DecidableEq

/-- Embeds `delete_participant`:
`DELETE FROM PARTICIPANTS WHERE id = ? AND event_id = ?`, then an
unconditional redirect back to the participant list. -/
def delete_participant (db : DB) (event_id participant_id : Nat) :
    PartResponse × DB :=
  (PartResponse.toParticipants event_id "Participant removed successfully.",
    { db with
      participants := db.participants.filter
        (fun p => !(decide (p.id = participant_id) && decide (p.event_id = event_id))) })

/-! ## Dashboard (src/app.py:297-323) -/

structure DashboardEntry where
  event : Event
  participant_count : Nat
  registration_url : Option String
  has_token : Bool
deriving DecidableEq

/-- Embeds `url_for('public_register', token=token, _external=True)` modulo host. -/
def registrationUrl (token : String) : String :=
  "/register/" ++ token

/-- One iteration of the dashboard loop (src/app.py:305-321). -/
def dashboard_entry (db : DB) (e : Event) : DashboardEntry :=
  match get_event_token_safely e.registration_token with
  | some t =>
    { event := e, participant_count := get_participant_count db e.id,
      registration_url := some (registrationUrl t), has_token := true }
  | none =>
    { event := e, participant_count := get_participant_count db e.id,
      registration_url := none, has_token := false }

/-- The dashboard view: every event, each with count and registration URL. -/
def dashboard (db : DB) : List DashboardEntry :=
  db.events.map (dashboard_entry db)

/-! ## State invariants used by the relational claims -/

/-- Every stored participant email is already in lowercase form. -/
def emailsLowercase (db : DB) : Bool :=
  db.participants.all (fun p => pyLower p.email = p.email)

/-- No two participant rows of the same event share the same lowercased
email. -/
def noDupEmailPerEvent : List Participant → Bool
  | [] => true
  | p :: rest =>
    rest.all (fun q =>
        !(decide (q.event_id = p.event_id) && decide (pyLower q.email = pyLower p.email)))
      && noDupEmailPerEvent rest

/-! ## Concrete fixtures used by witnesses and counterexamples -/

def evA : Event :=
  { id := 1, name := "Hack Day", description := "", date := "2025-01-01",
    registration_token := TokenField.val "tokA" }

def evB : Event :=
  { id := 2, name := "Demo Night", description := "", date := "2025-02-02",
    registration_token := TokenField.val "tokB" }

def evNull : Event :=
  { id := 7, name := "Legacy Meetup", description := "", date := "2020-01-01",
    registration_token := TokenField.null }

def partAlice : Participant :=
  { id := 1, event_id := 1, name := "Alice", email := "alice@x.com", college := "MIT" }

def partBob : Participant :=
  { id := 2, event_id := 2, name := "Bob", email := "bob@y.com", college := "CMU" }

def partAnn : Participant :=
  { id := 1, event_id := 1, name := "Ann", email := "ann@x.com", college := "MIT" }

/-- One event, one registered participant. -/
def dbOne : DB :=
  { events := [evA], participants := [partAlice], nextEventId := 2, nextParticipantId := 2 }

/-- Two events with one participant each. -/
def dbTwo : DB :=
  { events := [evB, evA], participants := [partBob, partAlice],
    nextEventId := 3, nextParticipantId := 3 }

/-- One event, nobody registered yet. -/
def dbEmptyEv : DB :=
  { events := [evA], participants := [], nextEventId := 2, nextParticipantId := 1 }

/-- One event with Ann already registered. -/
def dbAnn : DB :=
  { events := [evA], participants := [partAnn], nextEventId := 2, nextParticipantId := 2 }

/-- A legacy event whose `registration_token` column holds SQL `NULL`. -/
def dbLegacy : DB :=
  { events := [evNull], participants := [], nextEventId := 8, nextParticipantId := 1 }

/-! ## Library lemmas about the string primitives -/

theorem toNat_ofNat_small (n : Nat) (h : n < 55296) : (Char.ofNat n).toNat = n := by
  simp [Char.ofNat, Nat.isValidChar, h, Char.ofNatAux, Char.toNat, UInt32.toNat]

theorem lowerChar_toNat_of_upper (c : Char) (h : 65 ≤ c.toNat ∧ c.toNat ≤ 90) :
    (lowerChar c).toNat = c.toNat + 32 := by
  have h1 : lowerChar c = Char.ofNat (c.toNat + 32) := if_pos h
  rw [h1]
  exact toNat_ofNat_small _ (by omega)

theorem lowerChar_idem (c : Char) : lowerChar (lowerChar c) = lowerChar c := by
  by_cases h : 65 ≤ c.toNat ∧ c.toNat ≤ 90
  · have h2 := lowerChar_toNat_of_upper c h
    rw [show lowerChar (lowerChar c)
          = if 65 ≤ (lowerChar c).toNat ∧ (lowerChar c).toNat ≤ 90
            then Char.ofNat ((lowerChar c).toNat + 32) else lowerChar c from rfl]
    rw [if_neg (by omega)]
  · rw [show lowerChar c = c from if_neg h]
    exact if_neg h

theorem isSpaceChar_lowerChar (c : Char) : isSpaceChar (lowerChar c) = isSpaceChar c := by
  by_cases h : 65 ≤ c.toNat ∧ c.toNat ≤ 90
  · have h2 := lowerChar_toNat_of_upper c h
    have hl : isSpaceChar (lowerChar c) = false := by
      simp only [isSpaceChar, h2, Bool.or_eq_false_iff, decide_eq_false_iff_not]
      omega
    have hr : isSpaceChar c = false := by
      simp only [isSpaceChar, Bool.or_eq_false_iff, decide_eq_false_iff_not]
      omega
    rw [hl, hr]
  · rw [show lowerChar c = c from if_neg h]

theorem pyLower_idem (s : String) : pyLower (pyLower s) = pyLower s := by
  simp only [pyLower, List.map_map]
  exact congrArg String.mk (congrArg (fun f => List.map f s.data)
    (funext fun c => lowerChar_idem c))

theorem dropWhile_isSpace_map_lower (l : List Char) :
    List.dropWhile isSpaceChar (l.map lowerChar)
      = (List.dropWhile isSpaceChar l).map lowerChar := by
  rw [List.dropWhile_map]
  rw [show isSpaceChar ∘ lowerChar = isSpaceChar from funext fun c => isSpaceChar_lowerChar c]

theorem rdropWhile_isSpace_map_lower (l : List Char) :
    List.rdropWhile isSpaceChar (l.map lowerChar)
      = (List.rdropWhile isSpaceChar l).map lowerChar := by
  simp only [List.rdropWhile]
  rw [← List.map_reverse, dropWhile_isSpace_map_lower, List.map_reverse]

theorem pyStrip_pyLower_comm (s : String) :
    pyStrip (pyLower s) = pyLower (pyStrip s) := by
  simp only [pyStrip, pyLower]
  rw [dropWhile_isSpace_map_lower, rdropWhile_isSpace_map_lower]

theorem dropWhile_eq_self_of_prefixed {p : Char → Bool} {r m : List Char}
    (hpre : r <+: m) (hm : List.dropWhile p m = m) :
    List.dropWhile p r = r := by
  cases r with
  | nil => rfl
  | cons a as =>
    obtain ⟨t, ht⟩ := hpre
    have ha : p a = false := by
      rw [← ht] at hm
      rw [List.cons_append, List.dropWhile_cons] at hm
      by_cases h : p a = true
      · rw [if_pos h] at hm
        have hlen := congrArg List.length hm
        have hle : (List.dropWhile p (as ++ t)).length ≤ (as ++ t).length :=
          ((List.dropWhile_suffix p).sublist).length_le
        simp only [List.length_cons, List.length_append] at hlen hle
        omega
      · exact Bool.eq_false_iff.mpr h
    rw [List.dropWhile_cons, ha]
    simp

theorem pyStrip_idem (s : String) : pyStrip (pyStrip s) = pyStrip s := by
  simp only [pyStrip]
  have h1 : List.dropWhile isSpaceChar
      (List.rdropWhile isSpaceChar (List.dropWhile isSpaceChar s.data))
      = List.rdropWhile isSpaceChar (List.dropWhile isSpaceChar s.data) :=
    dropWhile_eq_self_of_prefixed ( List.rdropWhile_prefix _ _)
      (List.dropWhile_idempotent _ _)
  rw [h1, List.rdropWhile_idempotent]

theorem normalize_email_idem (e : String) :
    normalize_email (normalize_email e) = normalize_email e := by
  simp only [normalize_email]
  rw [pyStrip_pyLower_comm, pyStrip_idem, pyLower_idem]

theorem is_valid_email_ne_empty {s : String} (h : is_valid_email s = true) :
    s ≠ "" := by
  intro hs
  rw [hs] at h
  exact absurd h (by decide)

/-! ## Claim theorems -/

/-- Claim C7: for every token matching no event's `registration_token`, a
registration request with that token yields the dedicated invalid-link error
view, creates no `Participant` row and changes no `Event` row. -/
theorem invalid_token_rejected (db : DB) (token : String) (form : RegForm)
    (hnone : get_event_by_token db token = none) :
    public_register db token form
      = (RegResponse.errorView "Invalid Registration Link"
          "The registration link you used is invalid or has expired.", db) ∧
    (public_register db token form).2.participants = db.participants ∧
    (public_register db token form).2.events = db.events := by
  have h : public_register db token form
      = (RegResponse.errorView "Invalid Registration Link"
          "The registration link you used is invalid or has expired.", db) := by
    unfold public_register public_register_post
    rw [hnone]
  exact ⟨h, by rw [h], by rw [h]⟩

/-- Witness for C7: the literal scenario `/register/not-a-real-token`. -/
theorem invalid_token_rejected_witness :
    get_event_by_token dbOne "not-a-real-token" = none ∧
    public_register dbOne "not-a-real-token" ⟨"Ann", "ann@x.com", "MIT"⟩
      = (RegResponse.errorView "Invalid Registration Link"
          "The registration link you used is invalid or has expired.", dbOne) :=
  ⟨by decide,
    (invalid_token_rejected dbOne "not-a-real-token" ⟨"Ann", "ann@x.com", "MIT"⟩
      (by decide)).1⟩

/-- Claim C8 counterexample: the code strips the submitted username before
comparing, so `login` establishes a session for the submitted pair
`(" admin ", "admin123")` even though that pair does not exactly match the
configured `("admin", "admin123")` — refuting the only-if direction of the
claim as stated. -/
theorem login_exact_match_counterexample :
    (login defaultConfig " admin " "admin123").isSome = true ∧
    ¬(" admin " = defaultConfig.admin_username
        ∧ "admin123" = defaultConfig.admin_password) := by
  exact ⟨by decide, by decide⟩

/-- Claim C8 (amended): `login` establishes an admin session if and only if
the stripped submitted username equals the configured username and the
submitted password exactly equals the configured password; every other pair
fails and establishes no session. -/
theorem login_iff_credentials (cfg : Config) (u p : String) :
    (login cfg u p).isSome = true
      ↔ (pyStrip u = cfg.admin_username ∧ p = cfg.admin_password) := by
  unfold login
  by_cases h1 : pyStrip u = cfg.admin_username
  · by_cases h2 : p = cfg.admin_password
    · simp [h1, h2]
    · simp [h1, h2]
  · simp [h1]

/-- Claim C10: `get_event_token_safely` is total over the three degenerate
shapes of the `registration_token` field — it returns the stored token when
present and non-empty, and `none` (never raising) when the column is missing,
`NULL`, or the empty string — and the dashboard renders a tokenless event
with `registration_url = none` (and `has_token = false`) instead of failing. -/
theorem token_accessor_total (f : TokenField) (db : DB) (e : Event) :
    (∀ s : String, f = TokenField.val s → s ≠ "" →
        get_event_token_safely f = some s) ∧
    ((f = TokenField.missing ∨ f = TokenField.null ∨ f = TokenField.val "") →
        get_event_token_safely f = none) ∧
    (get_event_token_safely e.registration_token = none →
        (dashboard_entry db e).registration_url = none ∧
        (dashboard_entry db e).has_token = false) ∧
    (e ∈ db.events → dashboard_entry db e ∈ dashboard db) := by
  refine ⟨?_, ?_, ?_, ?_⟩
  · rintro s rfl hs
    simp [get_event_token_safely, hs]
  · rintro (rfl | rfl | rfl) <;> simp [get_event_token_safely]
  · intro h
    unfold dashboard_entry
    rw [h]
    exact ⟨rfl, rfl⟩
  · intro h
    exact List.mem_map_of_mem (dashboard_entry db) h

/-- Witness for C10: a legacy event row whose token column holds `NULL` is
rendered on the dashboard with `registration_url = none`. -/
theorem token_accessor_total_witness :
    get_event_token_safely TokenField.null = none ∧
    (dashboard_entry dbLegacy evNull).registration_url = none ∧
    dashboard_entry dbLegacy evNull ∈ dashboard dbLegacy := by
  refine ⟨?_, ?_, ?_⟩
  · exact (token_accessor_total TokenField.null dbLegacy evNull).2.1
      (Or.inr (Or.inl rfl))
  · exact ((token_accessor_total TokenField.null dbLegacy evNull).2.2.1
      (by decide)).1
  · exact (token_accessor_total TokenField.null dbLegacy evNull).2.2.2
      (by decide)

/-- Claim C6: deleting an existing event removes that `Event` row and every
`Participant` row with its `event_id`, and leaves every other event and every
participant of other events untouched. -/
theorem delete_event_cascade (db : DB) (event_id : Nat) (event : Event)
    (hev : get_event_by_id db event_id = some event) :
    (∀ p ∈ (delete_event db event_id).2.participants, p.event_id ≠ event_id) ∧
    (∀ p ∈ db.participants, p.event_id ≠ event_id →
        p ∈ (delete_event db event_id).2.participants) ∧
    (∀ p ∈ (delete_event db event_id).2.participants, p ∈ db.participants) ∧
    (∀ e ∈ (delete_event db event_id).2.events, e.id ≠ event_id) ∧
    (∀ e ∈ db.events, e.id ≠ event_id → e ∈ (delete_event db event_id).2.events) ∧
    (∀ e ∈ (delete_event db event_id).2.events, e ∈ db.events) := by
  have h2 : (delete_event db event_id).2
      = { db with
          participants :=
            db.participants.filter (fun p => !decide (p.event_id = event_id)),
          events := db.events.filter (fun e => !decide (e.id = event_id)) } := by
    unfold delete_event
    rw [hev]
  rw [h2]
  refine ⟨?_, ?_, ?_, ?_, ?_, ?_⟩
  · intro p hp
    simp only [List.mem_filter, Bool.not_eq_true', decide_eq_false_iff_not] at hp
    exact hp.2
  · intro p hp hne
    simp only [List.mem_filter, Bool.not_eq_true', decide_eq_false_iff_not]
    exact ⟨hp, hne⟩
  · intro p hp
    exact (List.mem_filter.mp hp).1
  · intro e he
    simp only [List.mem_filter, Bool.not_eq_true', decide_eq_false_iff_not] at he
    exact he.2
  · intro e he hne
    simp only [List.mem_filter, Bool.not_eq_true', decide_eq_false_iff_not]
    exact ⟨he, hne⟩
  · intro e he
    exact (List.mem_filter.mp he).1

/-- Witness for C6: deleting event 1 of `dbTwo` keeps Bob (event 2) and
event 2's row. -/
theorem delete_event_cascade_witness :
    get_event_by_id dbTwo 1 = some evA ∧
    partBob ∈ (delete_event dbTwo 1).2.participants ∧
    evB ∈ (delete_event dbTwo 1).2.events :=
  ⟨by decide,
    (delete_event_cascade dbTwo 1 evA (by decide)).2.1 partBob (by decide) (by decide),
    (delete_event_cascade dbTwo 1 evA (by decide)).2.2.2.2.1 evB (by decide) (by decide)⟩

theorem length_le_filter_remove_one (l : List Participant) (pid eid : Nat)
    (h : (l.map Participant.id).Nodup) :
    l.length ≤ (l.filter
        (fun p => !(decide (p.id = pid) && decide (p.event_id = eid)))).length + 1 := by
  induction l with
  | nil => simp
  | cons p rest ih =>
    rw [List.map_cons, List.nodup_cons] at h
    by_cases hp : (p.id = pid ∧ p.event_id = eid)
    · have hfil : rest.filter
          (fun q => !(decide (q.id = pid) && decide (q.event_id = eid))) = rest := by
        apply List.filter_eq_self.mpr
        intro q hq
        have hqid : q.id ≠ pid := by
          intro hqid
          apply h.1
          rw [hp.1, ← hqid]
          exact List.mem_map_of_mem _ hq
        simp [hqid]
      have hcond : (!(decide (p.id = pid) && decide (p.event_id = eid))) = false := by
        simp [hp.1, hp.2]
      simp only [List.filter_cons, hcond, Bool.false_eq_true, if_false, hfil,
        List.length_cons]
      omega
    · have hcond : (!(decide (p.id = pid) && decide (p.event_id = eid))) = true := by
        rcases Decidable.not_and_iff_or_not.mp hp with h1 | h1 <;> simp [h1]
      simp only [List.filter_cons, hcond, if_true, List.length_cons]
      have := ih h.2
      omega

/-- Claim C9: `delete_participant` removes at most the single row matching
both the participant id and the event id — a participant with the same id in
a different event is untouched — and always redirects back to the
participant list; the events table is untouched. -/
theorem delete_participant_scoped (db : DB) (event_id participant_id : Nat)
    (hnodup : (db.participants.map Participant.id).Nodup) :
    (delete_participant db event_id participant_id).1
      = PartResponse.toParticipants event_id "Participant removed successfully." ∧
    (∀ p ∈ (delete_participant db event_id participant_id).2.participants,
        p ∈ db.participants) ∧
    (∀ p ∈ db.participants,
        p ∈ (delete_participant db event_id participant_id).2.participants
          ∨ (p.id = participant_id ∧ p.event_id = event_id)) ∧
    (∀ p ∈ db.participants, p.id = participant_id → p.event_id ≠ event_id →
        p ∈ (delete_participant db event_id participant_id).2.participants) ∧
    db.participants.length
      ≤ (delete_participant db event_id participant_id).2.participants.length + 1 ∧
    (delete_participant db event_id participant_id).2.events = db.events := by
  refine ⟨rfl, ?_, ?_, ?_, ?_, rfl⟩
  · intro p hp
    exact (List.mem_filter.mp hp).1
  · intro p hp
    by_cases hmatch : (p.id = participant_id ∧ p.event_id = event_id)
    · exact Or.inr hmatch
    · left
      apply List.mem_filter.mpr
      refine ⟨hp, ?_⟩
      rcases Decidable.not_and_iff_or_not.mp hmatch with h1 | h1 <;> simp [h1]
  · intro p hp hpid hne
    apply List.mem_filter.mpr
    exact ⟨hp, by simp [hne]⟩
  · exact length_le_filter_remove_one db.participants participant_id event_id hnodup

/-- Witness for C9: deleting `(event_id, participant_id) = (1, 2)` in `dbTwo`
leaves Bob (id 2, but of event 2) in place and still redirects. -/
theorem delete_participant_scoped_witness :
    (delete_participant dbTwo 1 2).1
      = PartResponse.toParticipants 1 "Participant removed successfully." ∧
    partBob ∈ (delete_participant dbTwo 1 2).2.participants :=
  ⟨(delete_participant_scoped dbTwo 1 2 (by decide)).1,
    (delete_participant_scoped dbTwo 1 2 (by decide)).2.2.2.1 partBob
      (by decide) (by decide) (by decide)⟩

/-- Claim C3 counterexample: in `dbOne` event 1 has one participant
(`countParticipants = 1`), but viewing its participants with search string
`"zzz"` displays a participant count of `0` — the displayed count equals the
length of the search-filtered list, not `countParticipants`, so the claim
fails for non-empty search strings. -/
theorem view_count_counterexample :
    get_event_by_id dbOne 1 = some evA ∧
    view_participants dbOne 1 "zzz" = ViewResponse.page [] 0 ∧
    get_participant_count dbOne 1 = 1 := by
  exact ⟨by decide, by decide, by decide⟩

/-- Claim C3 (amended): for every existing event, the participant count
displayed by the view-participants operation equals the length of the
returned participant list, and when the search string is empty (after
trimming) that count equals `countParticipants(eventId)`; a non-empty search
filters the list, so the displayed count then counts only the matching
participants. -/
theorem view_count_eq_total (db : DB) (event_id : Nat) (event : Event)
    (search : String)
    (hev : get_event_by_id db event_id = some event)
    (hq : pyLower (pyStrip search) = "") :
    view_participants db event_id search
      = ViewResponse.page
          (db.participants.filter (fun p => decide (p.event_id = event_id)))
          (get_participant_count db event_id) := by
  unfold view_participants
  rw [hev]
  simp only [hq, if_pos rfl]
  rfl

/-- Witness for C3 (amended): with an empty search the displayed count is the
full count. -/
theorem view_count_eq_total_witness :
    view_participants dbOne 1 "" = ViewResponse.page [partAlice] 1 :=
  (view_count_eq_total dbOne 1 evA "" (by decide) (by decide)).trans (by decide)

/-- Claim C1: for every creation request whose stripped name has length at
least 3 and whose stripped date is non-empty, `create_event` inserts exactly
one new `Event` row in front of the existing ones; its `registration_token`
is the freshly generated token — non-null, column present — and distinct
from the token of every previously existing row.  The freshness hypothesis
embeds the collision-freedom of `secrets.token_urlsafe(16)`; on a collision
the `UNIQUE` constraint makes the insert fail with no row added. -/
theorem create_event_unique_token (db : DB) (form : EventForm)
    (freshToken : String)
    (hname : 3 ≤ (pyStrip form.name).length)
    (hdate : pyStrip form.date ≠ "")
    (hfresh : ∀ e ∈ db.events, e.registration_token ≠ TokenField.val freshToken) :
    ∃ ev : Event,
      (create_event db form freshToken).2.events = ev :: db.events ∧
      (create_event db form freshToken).2.participants = db.participants ∧
      ev.registration_token = TokenField.val freshToken ∧
      ev.registration_token ≠ TokenField.null ∧
      ev.registration_token ≠ TokenField.missing ∧
      ∀ e ∈ db.events, e.registration_token ≠ ev.registration_token := by
  have hne : pyStrip form.name ≠ "" := by
    intro h
    rw [h] at hname
    exact absurd hname (by decide)
  have g1 : (pyStrip form.name = "" || (pyStrip form.name).length < 3) = false := by
    simp [hne, Nat.not_lt.mpr hname]
  have g2 : (pyStrip form.date = "" : Bool) = false := by
    simp [hdate]
  have g3 : db.events.any
      (fun e => tokenMatches e.registration_token freshToken) = false := by
    rw [List.any_eq_false]
    intro e he
    simp only [tokenMatches, decide_eq_true_eq]
    exact hfresh e he
  have hstep : create_event db form freshToken
      = (AdminResponse.toDashboard
          ("Event \"" ++ pyStrip form.name
            ++ "\" created successfully! Registration link generated."),
         { db with
           events :=
             { id := db.nextEventId, name := pyStrip form.name,
               description := pyStrip form.description, date := pyStrip form.date,
               registration_token := TokenField.val freshToken } :: db.events,
           nextEventId := db.nextEventId + 1 }) := by
    unfold create_event
    simp only [g1, Bool.false_eq_true, if_false]
    rw [if_neg hdate]
    simp only [g3, Bool.false_eq_true, if_false]
  refine ⟨{ id := db.nextEventId, name := pyStrip form.name,
            description := pyStrip form.description, date := pyStrip form.date,
            registration_token := TokenField.val freshToken }, ?_, ?_, rfl,
          by simp, by simp, fun e he => hfresh e he⟩
  · rw [hstep]
  · rw [hstep]

/-- Witness for C1. -/
theorem create_event_unique_token_witness :
    ∃ ev : Event,
      (create_event dbOne ⟨" Demo Night ", "", " 2025-02-02 "⟩ "tokB").2.events
        = ev :: dbOne.events ∧
      (create_event dbOne ⟨" Demo Night ", "", " 2025-02-02 "⟩ "tokB").2.participants
        = dbOne.participants ∧
      ev.registration_token = TokenField.val "tokB" ∧
      ev.registration_token ≠ TokenField.null ∧
      ev.registration_token ≠ TokenField.missing ∧
      ∀ e ∈ dbOne.events, e.registration_token ≠ ev.registration_token :=
  create_event_unique_token dbOne ⟨" Demo Night ", "", " 2025-02-02 "⟩ "tokB"
    (by decide) (by decide) (by decide)

/-- Claim C4: on an existing event the validation checks short-circuit in the
strict order name-length, email-format, duplicate-email, college-length, and
the flashed error is the one of the first failing check. -/
theorem register_error_priority (db : DB) (token : String) (event : Event)
    (form : RegForm)
    (hev : get_event_by_token db token = some event) :
    ((pyStrip form.name).length < 2 →
      public_register db token form
        = (RegResponse.backToForm token "Name must be at least 2 characters.", db)) ∧
    (2 ≤ (pyStrip form.name).length →
      is_valid_email (normalize_email form.email) = false →
      public_register db token form
        = (RegResponse.backToForm token "Please enter a valid email address.", db)) ∧
    (2 ≤ (pyStrip form.name).length →
      is_valid_email (normalize_email form.email) = true →
      participant_exists_in_event db (normalize_email form.email) event.id = true →
      public_register db token form
        = (RegResponse.backToForm token
            "This email is already registered for this event.", db)) ∧
    (2 ≤ (pyStrip form.name).length →
      is_valid_email (normalize_email form.email) = true →
      participant_exists_in_event db (normalize_email form.email) event.id = false →
      (pyStrip form.college).length < 2 →
      public_register db token form
        = (RegResponse.backToForm token
            "College/Organization must be at least 2 characters.", db)) := by
  refine ⟨?_, ?_, ?_, ?_⟩
  · intro hlen
    have g1 : (decide (pyStrip form.name = "")
        || decide ((pyStrip form.name).length < 2)) = true := by simp [hlen]
    unfold public_register public_register_post
    rw [hev]
    simp [g1]
  · intro hname hemail
    have hnne : pyStrip form.name ≠ "" := by
      intro h; rw [h] at hname; exact absurd hname (by decide)
    have g1 : (decide (pyStrip form.name = "")
        || decide ((pyStrip form.name).length < 2)) = false := by
      simp [hnne, Nat.not_lt.mpr hname]
    have g2 : (decide (normalize_email form.email = "")
        || !is_valid_email (normalize_email form.email)) = true := by
      simp [hemail]
    unfold public_register public_register_post
    rw [hev]
    simp [g1, g2]
  · intro hname hemail hdup
    have hnne : pyStrip form.name ≠ "" := by
      intro h; rw [h] at hname; exact absurd hname (by decide)
    have g1 : (decide (pyStrip form.name = "")
        || decide ((pyStrip form.name).length < 2)) = false := by
      simp [hnne, Nat.not_lt.mpr hname]
    have g2 : (decide (normalize_email form.email = "")
        || !is_valid_email (normalize_email form.email)) = false := by
      simp [is_valid_email_ne_empty hemail, hemail]
    unfold public_register public_register_post
    rw [hev]
    simp [g1, g2, hdup]
  · intro hname hemail hdup hcol
    have hnne : pyStrip form.name ≠ "" := by
      intro h; rw [h] at hname; exact absurd hname (by decide)
    have g1 : (decide (pyStrip form.name = "")
        || decide ((pyStrip form.name).length < 2)) = false := by
      simp [hnne, Nat.not_lt.mpr hname]
    have g2 : (decide (normalize_email form.email = "")
        || !is_valid_email (normalize_email form.email)) = false := by
      simp [is_valid_email_ne_empty hemail, hemail]
    have g4 : (decide (pyStrip form.college = "")
        || decide ((pyStrip form.college).length < 2)) = true := by simp [hcol]
    unfold public_register public_register_post
    rw [hev]
    simp [g1, g2, hdup, g4]

/-- Witness for C4: a form violating every check is reported with the
name-length error, the first in the order. -/
theorem register_error_priority_witness :
    public_register dbOne "tokA" ⟨" A ", "bad", "X"⟩
      = (RegResponse.backToForm "tokA" "Name must be at least 2 characters.", dbOne) :=
  (register_error_priority dbOne "tokA" evA ⟨" A ", "bad", "X"⟩ (by decide)).1
    (by decide)

theorem any_swap_eq_exists (db : DB) (em : String) (eid : Nat) :
    db.participants.any
        (fun p => decide (p.event_id = eid) && decide (p.email = em))
      = participant_exists_in_event db em eid := by
  unfold participant_exists_in_event
  exact congrArg db.participants.any (funext fun p => Bool.and_comm _ _)

/-- Claim C2: on an otherwise valid registration for an existing event, a
duplicate lowercased email — whether already visible to the pre-insert
existence check (`precheckDb`) or surfacing only as the uniqueness violation
at insert time (`insertDb`) — produces the same user-facing
already-registered outcome, and the participant rows (hence the event's
participant count) are unchanged. -/
theorem duplicate_email_uniform_outcome (precheckDb insertDb : DB)
    (token : String) (form : RegForm) (event : Event)
    (hev : get_event_by_token precheckDb token = some event)
    (hname : 2 ≤ (pyStrip form.name).length)
    (hemail : is_valid_email (normalize_email form.email) = true)
    (hcollege : 2 ≤ (pyStrip form.college).length)
    (hdup : participant_exists_in_event precheckDb (normalize_email form.email)
          event.id = true
        ∨ participant_exists_in_event insertDb (normalize_email form.email)
          event.id = true) :
    public_register_post precheckDb insertDb token form
      = (RegResponse.backToForm token
          "This email is already registered for this event.", insertDb) ∧
    get_participant_count (public_register_post precheckDb insertDb token form).2
        event.id
      = get_participant_count insertDb event.id := by
  have hnne : pyStrip form.name ≠ "" := by
    intro h; rw [h] at hname; exact absurd hname (by decide)
  have g1 : (decide (pyStrip form.name = "")
      || decide ((pyStrip form.name).length < 2)) = false := by
    simp [hnne, Nat.not_lt.mpr hname]
  have g2 : (decide (normalize_email form.email = "")
      || !is_valid_email (normalize_email form.email)) = false := by
    simp [is_valid_email_ne_empty hemail, hemail]
  by_cases hpre : participant_exists_in_event precheckDb
      (normalize_email form.email) event.id = true
  · have hmain : public_register_post precheckDb insertDb token form
        = (RegResponse.backToForm token
            "This email is already registered for this event.", insertDb) := by
      unfold public_register_post
      rw [hev]
      simp [g1, g2, hpre]
    exact ⟨hmain, by rw [hmain]⟩
  · have hins : participant_exists_in_event insertDb
        (normalize_email form.email) event.id = true := by
      rcases hdup with h | h
      · exact absurd h hpre
      · exact h
    have hpre' : participant_exists_in_event precheckDb
        (normalize_email form.email) event.id = false :=
      Bool.eq_false_iff.mpr hpre
    have hcne : pyStrip form.college ≠ "" := by
      intro h; rw [h] at hcollege; exact absurd hcollege (by decide)
    have g4 : (decide (pyStrip form.college = "")
        || decide ((pyStrip form.college).length < 2)) = false := by
      simp [hcne, Nat.not_lt.mpr hcollege]
    have gi : insertDb.participants.any
        (fun p => decide (p.event_id = event.id)
          && decide (p.email = normalize_email form.email)) = true := by
      rw [any_swap_eq_exists]
      exact hins
    have hmain : public_register_post precheckDb insertDb token form
        = (RegResponse.backToForm token
            "This email is already registered for this event.", insertDb) := by
      unfold public_register_post
      rw [hev]
      simp [insert_participant, g1, g2, hpre', g4, gi]
    exact ⟨hmain, by rw [hmain]⟩

/-- Witness for C2, exercising the race-detected side: the duplicate is
absent from the pre-check state but present in the insert-time state, and
the outcome is the same already-registered flash with the store unchanged. -/
theorem duplicate_email_uniform_outcome_witness :
    participant_exists_in_event dbEmptyEv "ann@x.com" 1 = false ∧
    public_register_post dbEmptyEv dbAnn "tokA" ⟨"Ann", " Ann@X.com ", "MIT"⟩
      = (RegResponse.backToForm "tokA"
          "This email is already registered for this event.", dbAnn) :=
  ⟨by decide,
    (duplicate_email_uniform_outcome dbEmptyEv dbAnn "tokA"
        ⟨"Ann", " Ann@X.com ", "MIT"⟩ evA (by decide) (by decide) (by decide)
        (by decide) (Or.inr (by decide))).1⟩

/-- Either a registration attempt leaves the store untouched, or it appends
exactly one participant row carrying the normalised email, and then no row
of that event already held that email. -/
theorem public_register_db_cases (db : DB) (token : String) (form : RegForm) :
    (public_register db token form).2 = db ∨
    ∃ event : Event, get_event_by_token db token = some event ∧
      db.participants.any
        (fun p => decide (p.event_id = event.id)
          && decide (p.email = normalize_email form.email)) = false ∧
      (public_register db token form).2
        = { db with
            participants :=
              { id := db.nextParticipantId, event_id := event.id,
                name := pyStrip form.name, email := normalize_email form.email,
                college := pyStrip form.college } :: db.participants,
            nextParticipantId := db.nextParticipantId + 1 } := by
  unfold public_register public_register_post
  cases hev : get_event_by_token db token with
  | none => exact Or.inl rfl
  | some event =>
    by_cases g1 : (decide (pyStrip form.name = "")
        || decide ((pyStrip form.name).length < 2)) = true
    · left; simp [g1]
    · have g1' := Bool.eq_false_iff.mpr g1
      by_cases g2 : (decide (normalize_email form.email = "")
          || !is_valid_email (normalize_email form.email)) = true
      · left; simp [g1', g2]
      · have g2' := Bool.eq_false_iff.mpr g2
        by_cases g3 : participant_exists_in_event db
            (normalize_email form.email) event.id = true
        · left; simp [g1', g2', g3]
        · have g3' := Bool.eq_false_iff.mpr g3
          by_cases g4 : (decide (pyStrip form.college = "")
              || decide ((pyStrip form.college).length < 2)) = true
          · left; simp [g1', g2', g3', g4]
          · have g4' := Bool.eq_false_iff.mpr g4
            by_cases g5 : db.participants.any
                (fun p => decide (p.event_id = event.id)
                  && decide (p.email = normalize_email form.email)) = true
            · left; simp [insert_participant, g1', g2', g3', g4', g5]
            · have g5' := Bool.eq_false_iff.mpr g5
              right
              exact ⟨event, rfl, g5',
                by simp [insert_participant, g1', g2', g3', g4', g5']⟩

/-- Claim C5: email normalisation (`strip` then `lower`) is idempotent;
registering with `Foo@X.com` stores `foo@x.com`, querying by `foo@x.com`
finds that row, and re-submitting `FOO@X.COM` for the same event is rejected
as a duplicate with the count staying 1; and registration preserves the
invariants that every stored email is lowercase and that no two participant
rows of the same event share the same lowercased email. -/
theorem email_normalization_caseinsensitive :
    (∀ s : String, normalize_email (normalize_email s) = normalize_email s) ∧
    ((public_register dbEmptyEv "tokA" ⟨"Ann", "Foo@X.com", "MIT"⟩).2.participants
        = [{ id := 1, event_id := 1, name := "Ann", email := "foo@x.com",
             college := "MIT" }] ∧
      participant_exists_in_event
          (public_register dbEmptyEv "tokA" ⟨"Ann", "Foo@X.com", "MIT"⟩).2
          "foo@x.com" 1 = true ∧
      public_register
          (public_register dbEmptyEv "tokA" ⟨"Ann", "Foo@X.com", "MIT"⟩).2
          "tokA" ⟨"Bea", "FOO@X.COM", "Uni"⟩
        = (RegResponse.backToForm "tokA"
            "This email is already registered for this event.",
           (public_register dbEmptyEv "tokA" ⟨"Ann", "Foo@X.com", "MIT"⟩).2) ∧
      get_participant_count
          (public_register dbEmptyEv "tokA" ⟨"Ann", "Foo@X.com", "MIT"⟩).2 1 = 1) ∧
    (∀ (db : DB) (token : String) (form : RegForm),
      emailsLowercase db = true →
      noDupEmailPerEvent db.participants = true →
      emailsLowercase (public_register db token form).2 = true ∧
      noDupEmailPerEvent (public_register db token form).2.participants = true) := by
  refine ⟨normalize_email_idem, by decide, ?_⟩
  intro db token form h1 h2
  rcases public_register_db_cases db token form with hcase | ⟨event, _, hany, hcase⟩
  · rw [hcase]
    exact ⟨h1, h2⟩
  · rw [hcase]
    have hlow : pyLower (normalize_email form.email) = normalize_email form.email := by
      simp only [normalize_email]
      exact pyLower_idem _
    have hfresh : ∀ q ∈ db.participants,
        ¬(q.event_id = event.id ∧ q.email = normalize_email form.email) := by
      intro q hq
      have := List.any_eq_false.mp hany q hq
      simpa using this
    constructor
    · unfold emailsLowercase at h1 ⊢
      simp only [List.all_cons, Bool.and_eq_true]
      exact ⟨by simpa using hlow, h1⟩
    · show noDupEmailPerEvent
        ({ id := db.nextParticipantId, event_id := event.id,
           name := pyStrip form.name, email := normalize_email form.email,
           college := pyStrip form.college } :: db.participants) = true
      unfold noDupEmailPerEvent
      rw [Bool.and_eq_true]
      refine ⟨?_, h2⟩
      rw [List.all_eq_true]
      intro q hq
      simp only [Bool.not_eq_true', Bool.and_eq_false_iff, decide_eq_false_iff_not]
      by_cases hqe : q.event_id = event.id
      · right
        intro hle
        have hql : pyLower q.email = q.email := by
          have := List.all_eq_true.mp h1 q hq
          simpa using this
        rw [hql, hlow] at hle
        exact hfresh q hq ⟨hqe, hle⟩
      · left
        exact hqe

/-- Witness for C5's invariant-preservation part. -/
theorem email_normalization_caseinsensitive_witness :
    emailsLowercase (public_register dbOne "tokA" ⟨"Zed", " Zed@Q.org ", "ETH"⟩).2
        = true ∧
    noDupEmailPerEvent
        (public_register dbOne "tokA" ⟨"Zed", " Zed@Q.org ", "ETH"⟩).2.participants
        = true :=
  email_normalization_caseinsensitive.2.2 dbOne "tokA" ⟨"Zed", " Zed@Q.org ", "ETH"⟩
    (by decide) (by decide)

end EventApp
